import Mathlib

/-
Verification of the tabrela backend (a multi-service debate-club platform,
services auth / attendance / merit / tabulation) against its natural-language
specification.  Each Rust handler or database function that a claim touches is
shallowly embedded as an executable Lean definition; machine integers are
modelled as Int/Nat, SQL NULLable columns as Option, the rust_decimal type as
Rat, and fallible database calls as explicit success/failure outcomes.
-/

set_option maxRecDepth 4000

namespace Tabrela

/- ============================================================ -/
/- Tabulation service: release toggle (handlers.rs toggle_release,
   database.rs update_match_release)                             -/
/- ============================================================ -/

/-- The two release flags of a row of the matches table
    (models.rs Match, restricted to the columns toggle_release touches). -/
structure MatchRelease where
  scores_released : Bool
  rankings_released : Bool
deriving DecidableEq, Repr

/-- models.rs ReleaseToggleRequest: both fields optional. -/
structure ReleaseToggleRequest where
  scores_released : Option Bool
  rankings_released : Option Bool
deriving DecidableEq, Repr

/-- SQL COALESCE of a bound nullable parameter against a NOT NULL boolean
    column: a NULL parameter keeps the stored value. -/
def coalesceB (p : Option Bool) (old : Bool) : Bool :=
  match p with
  | some v => v
  | none => old

/-- database.rs update_match_release: each flag is set to
    COALESCE(parameter, stored value). -/
def update_match_release (m : MatchRelease) (scores rankings : Option Bool) :
    MatchRelease :=
  { scores_released := coalesceB scores m.scores_released
    rankings_released := coalesceB rankings m.rankings_released }

/-- handlers.rs toggle_release lines 510-527: if the request sets
    scores_released = true the handler overrides the requested
    rankings_released with Some(true), then calls update_match_release. -/
def toggle_release (m : MatchRelease) (p : ReleaseToggleRequest) : MatchRelease :=
  let scores := p.scores_released
  let rankings :=
    if scores = some true then some true else p.rankings_released
  update_match_release m scores rankings

/- ============================================================ -/
/- Attendance service: admin check-in (database.rs check_in_user) -/
/- ============================================================ -/

/-- The columns of attendance_records that check_in_user reads or writes
    (attendance models.rs AttendanceRecord).  Time instants are modelled
    as naturals. -/
structure AttendanceRecord where
  is_available : Bool
  is_checked_in : Bool
  checked_in_by : Option Nat
  checked_in_at : Option Nat
deriving DecidableEq, Repr

/-- attendance database.rs check_in_user lines 304-335: an INSERT .. ON
    CONFLICT (event_id, user_id) DO UPDATE.  The insert branch writes
    is_available = true; the conflict branch updates only is_checked_in,
    checked_in_by and checked_in_at.  The bound parameters are
    $4 = is_checked_in, $5 = checked_in_by (NULL when clearing),
    $6 = checked_in_at (NULL when clearing).
    The argument existing is the stored row for (event_id, user_id), none
    when no such row exists. -/
def check_in_user (existing : Option AttendanceRecord)
    (is_checked_in : Bool) (checked_in_by : Nat) (now : Nat) :
    AttendanceRecord :=
  let by_val : Option Nat := if is_checked_in then some checked_in_by else none
  let at_val : Option Nat := if is_checked_in then some now else none
  match existing with
  | none =>
      { is_available := true
        is_checked_in := is_checked_in
        checked_in_by := by_val
        checked_in_at := at_val }
  | some r =>
      { r with
        is_checked_in := is_checked_in
        checked_in_by := by_val
        checked_in_at := at_val }

/- ============================================================ -/
/- Merit service: admin merit adjustment (database.rs update_merit,
   handlers.rs admin_update_merit)                               -/
/- ============================================================ -/

/-- A row of merit_history as inserted by update_merit
    (merit models.rs MeritHistory, restricted to the ledger columns). -/
structure MeritHistoryRow where
  admin_id : Nat
  change_amount : Int
  previous_total : Int
  new_total : Int
deriving DecidableEq, Repr

/-- The database state update_merit touches, restricted to one user:
    the user_merit row (none when absent) and the user's merit_history
    rows in insertion (time) order. -/
structure MeritState where
  merit_points : Option Int
  history : List MeritHistoryRow
deriving DecidableEq, Repr

/-- Two's-complement wrap-around of a 32-bit signed addition result: the
    representative of x modulo 2^32 in [-2147483648, 2147483647]. -/
def wrap32 (x : Int) : Int :=
  (x + 2147483648) % 4294967296 - 2147483648

/-- x lies in the i32 range. -/
def i32range (x : Int) : Prop :=
  -2147483648 ≤ x ∧ x ≤ 2147483647

instance i32range_decidable (x : Int) : Decidable (i32range x) := by
  unfold i32range
  infer_instance

/-- merit database.rs update_merit lines 73-151.  The whole body runs on a
    single explicit transaction (pool.begin .. tx.commit), so it is embedded
    as one atomic state transform: upsert a zero row if absent, read the
    current total, write new_total = previous_total + change_amount, insert
    one history row recording both totals.  The totals and change_amount
    are Rust i32 values (change_amount comes unvalidated from
    UpdateMeritRequest), and the addition at line 113 is evaluated in i32:
    release builds compile with overflow checks off, so it wraps — modelled
    by wrap32. -/
def update_merit (s : MeritState) (admin_id : Nat) (change_amount : Int) :
    MeritState :=
  let previous_total := s.merit_points.getD 0
  let new_total := wrap32 (previous_total + change_amount)
  { merit_points := some new_total
    history := s.history ++ [⟨admin_id, change_amount, previous_total,
      new_total⟩] }

/-- A sequence of admin merit adjustments, applied oldest first. -/
def run_merit (s : MeritState) (ops : List (Nat × Int)) : MeritState :=
  ops.foldl (fun t op => update_merit t op.1 op.2) s

/-- Initial state: no user_merit row and no history for the user. -/
def meritInit : MeritState := ⟨none, []⟩

/- ============================================================ -/
/- Auth service: OTP attempt bound (database.rs verify_email_otp,
   handlers.rs reset_password)                                   -/
/- ============================================================ -/

/-- The columns of email_verification_tokens that verify_email_otp uses. -/
structure OtpRow where
  otp : Nat
  attempts : Nat
deriving DecidableEq, Repr

/-- auth database.rs verify_email_otp lines 396-450, acting on the user's
    live (unexpired) token row, none when absent.  Returns whether the
    verification was accepted together with the row afterwards: attempts ≥ 5
    rejects outright; a correct OTP verifies and deletes the row; a wrong
    OTP increments attempts. -/
def verify_email_otp (row : Option OtpRow) (given : Nat) :
    Bool × Option OtpRow :=
  match row with
  | none => (false, none)
  | some r =>
      if 5 ≤ r.attempts then (false, some r)
      else if r.otp = given then (true, none)
      else (false, some { r with attempts := r.attempts + 1 })

/-- The columns of password_reset_tokens that reset_password uses. -/
structure ResetRow where
  otp : Nat
  attempts : Nat
  used : Bool
deriving DecidableEq, Repr

/-- Outcome of the reset_password handler, by HTTP status. -/
inductive ResetOutcome where
  | badRequest
  | tooManyRequests
  | unauthorized (attempts_remaining : Int)
  | ok
deriving DecidableEq, Repr

/-- auth handlers.rs reset_password lines 960-1071 acting on the stored
    reset row for the email (none when absent or expired; a used row is
    filtered out by find_password_reset_by_email's used = false clause).
    attempts ≥ 5 gives 429; an OTP mismatch increments attempts and gives
    401 with the remaining count; a match resets the password, marks the
    row used and gives 200. -/
def reset_password (row : Option ResetRow) (given : Nat) :
    ResetOutcome × Option ResetRow :=
  let live := match row with
    | none => none
    | some r => if r.used then none else some r
  match live with
  | none => (.badRequest, row)
  | some r =>
      if 5 ≤ r.attempts then (.tooManyRequests, row)
      else if given ≠ r.otp then
        let new_attempts := r.attempts + 1
        (.unauthorized (max (5 - (new_attempts : Int)) 0),
          some { r with attempts := new_attempts })
      else (.ok, some { r with used := true })

/-- Run a sequence of email-OTP verification attempts against one token
    row, returning the number of attempts that were accepted as failures
    (processed with an increment) and the final row. -/
def run_email_otp : Option OtpRow → List Nat → Nat × Option OtpRow
  | row, [] => (0, row)
  | row, g :: gs =>
      let step := verify_email_otp row g
      let failedHere : Nat :=
        match row with
        | some r => if 5 ≤ r.attempts then 0 else if r.otp = g then 0 else 1
        | none => 0
      let rest := run_email_otp step.2 gs
      (failedHere + rest.1, rest.2)

/-- The ledger invariant of a single user's merit state, strengthened with
    the link between the stored total and the last history row: every row
    records the wrapping i32 sum, adjacent rows chain, and — when no
    recorded addition left the i32 range — the stored total is the exact
    sum of all change_amounts. -/
def MeritInv (s : MeritState) : Prop :=
  (∀ r ∈ s.history,
    r.new_total = wrap32 (r.previous_total + r.change_amount)) ∧
  s.history.Chain' (fun a b => b.previous_total = a.new_total) ∧
  ((s.history.getLast?.map (fun r => r.new_total)).getD 0
    = s.merit_points.getD 0) ∧
  ((∀ r ∈ s.history, i32range (r.previous_total + r.change_amount)) →
    s.merit_points.getD 0
      = (s.history.map (fun r => r.change_amount)).sum)

/-- How many further failed attempts a token row can still absorb. -/
def otpCapacity : Option OtpRow → Nat
  | none => 0
  | some r => 5 - min r.attempts 5

/- ============================================================ -/
/- Tabulation service: allocations (handlers.rs create_allocation,
   swap_allocations; database.rs update_allocation)              -/
/- ============================================================ -/

/-- models.rs AllocationRole. -/
inductive AllocationRole where
  | speaker
  | resource
  | votingAdjudicator
  | nonVotingAdjudicator
deriving DecidableEq, Repr

/-- models.rs TwoTeamSpeakerRole. -/
inductive TwoTeamSpeakerRole where
  | primeMinister
  | deputyPrimeMinister
  | governmentWhip
  | leaderOfOpposition
  | deputyLeaderOfOpposition
  | oppositionWhip
  | governmentReply
  | oppositionReply
deriving DecidableEq, Repr

/-- models.rs FourTeamSpeakerRole. -/
inductive FourTeamSpeakerRole where
  | primeMinister
  | deputyPrimeMinister
  | leaderOfOpposition
  | deputyLeaderOfOpposition
  | memberOfGovernment
  | governmentWhip
  | memberOfOpposition
  | oppositionWhip
deriving DecidableEq, Repr

/-- models.rs TeamFormat. -/
inductive TeamFormat where
  | twoTeam
  | fourTeam
deriving DecidableEq, Repr

/-- models.rs Allocation, restricted to the columns create_allocation and
    swap_allocations read or write. -/
structure Allocation where
  id : Nat
  user_id : Option Nat
  guest_name : Option String
  role : AllocationRole
  team_id : Option Nat
  two_team_speaker_role : Option TwoTeamSpeakerRole
  four_team_speaker_role : Option FourTeamSpeakerRole
  is_chair : Option Bool
  was_checked_in : Bool
deriving DecidableEq, Repr

/-- models.rs CreateAllocationRequest. -/
structure CreateAllocationRequest where
  user_id : Option Nat
  guest_name : Option String
  role : AllocationRole
  team_id : Option Nat
  two_team_speaker_role : Option TwoTeamSpeakerRole
  four_team_speaker_role : Option FourTeamSpeakerRole
  is_chair : Bool
deriving DecidableEq, Repr

/-- The database facts the create_allocation handler consults: whether the
    match and its series exist, the series's team format, which users
    exist, the match's existing allocations, the check-in predicate for the
    series's event, and the id drawn for the new row. -/
structure AllocationContext where
  match_exists : Bool
  series_exists : Bool
  team_format : TeamFormat
  user_exists : Nat → Bool
  existing_allocations : List Allocation
  checked_in : Nat → Bool
  new_id : Nat

/-- handlers.rs create_allocation lines 787-806: an existing allocation is
    an exact duplicate when it has the same user and same role, and — for
    speakers — the same (present) speaker-position field; any second
    allocation with the same role counts for non-speakers. -/
def has_exact_duplicate (existing : List Allocation) (uid : Nat)
    (p : CreateAllocationRequest) : Bool :=
  existing.any (fun a =>
    if a.user_id ≠ some uid then false
    else if a.role ≠ p.role then false
    else if p.role = AllocationRole.speaker then
      (decide (a.two_team_speaker_role = p.two_team_speaker_role)
        && p.two_team_speaker_role.isSome)
      || (decide (a.four_team_speaker_role = p.four_team_speaker_role)
        && p.four_team_speaker_role.isSome)
    else true)

/-- handlers.rs create_allocation lines 823-895: the checks after the
    optional user branch — series lookup, speaker team requirement,
    speaker-role-per-format requirement — and the construction of the
    inserted row (is_chair is always stored as Some of the request's
    boolean). -/
def create_allocation_rest (ctx : AllocationContext)
    (p : CreateAllocationRequest) (was_checked_in : Bool) :
    Except (Nat × String) Allocation :=
  if ¬ ctx.series_exists then Except.error (404, "Series not found")
  else if p.role = AllocationRole.speaker ∧ p.team_id = none then
    Except.error (400, "Speakers must be assigned to a team")
  else if p.role = AllocationRole.speaker ∧ ctx.team_format = TeamFormat.twoTeam
      ∧ p.two_team_speaker_role = none then
    Except.error (400, "Two-team speaker role required")
  else if p.role = AllocationRole.speaker ∧ ctx.team_format = TeamFormat.fourTeam
      ∧ p.four_team_speaker_role = none then
    Except.error (400, "Four-team speaker role required")
  else
    Except.ok ⟨ctx.new_id, p.user_id, p.guest_name, p.role, p.team_id,
      p.two_team_speaker_role, p.four_team_speaker_role, some p.is_chair,
      was_checked_in⟩

/-- handlers.rs create_allocation lines 708-895 as a pure decision
    function (database statements assumed reachable; their transient
    failures are orthogonal to this claim).  Note the only guard on the
    user/guest pair is that at least one is present: lines 713-719 reject
    only when BOTH are absent. -/
def create_allocation (ctx : AllocationContext)
    (p : CreateAllocationRequest) : Except (Nat × String) Allocation :=
  if p.user_id = none ∧ p.guest_name = none then
    Except.error (400, "Either user_id or guest_name must be provided")
  else if ¬ ctx.match_exists then Except.error (404, "Match not found")
  else
    match p.user_id with
    | some uid =>
        if ¬ ctx.user_exists uid then Except.error (404, "User not found")
        else if ¬ ctx.series_exists then
          Except.error (404, "Series not found")
        else if has_exact_duplicate ctx.existing_allocations uid p then
          Except.error (409, "User already has this exact role in this match")
        else create_allocation_rest ctx p (ctx.checked_in uid)
    | none => create_allocation_rest ctx p false

/-- SQL COALESCE of a bound nullable parameter against a nullable column:
    a NULL parameter keeps the stored value, a non-NULL parameter replaces
    it. -/
def coalesceOpt {α : Type} (p old : Option α) : Option α :=
  match p with
  | some v => some v
  | none => old

/-- database.rs update_allocation lines 666-701: every field is written as
    COALESCE(parameter, stored value); role is a NOT NULL column, the rest
    are nullable. -/
def update_allocation (a : Allocation) (role : Option AllocationRole)
    (team_id : Option Nat) (two : Option TwoTeamSpeakerRole)
    (four : Option FourTeamSpeakerRole) (is_chair : Option Bool) :
    Allocation :=
  { a with
    role := role.getD a.role
    team_id := coalesceOpt team_id a.team_id
    two_team_speaker_role := coalesceOpt two a.two_team_speaker_role
    four_team_speaker_role := coalesceOpt four a.four_team_speaker_role
    is_chair := coalesceOpt is_chair a.is_chair }

/-- models.rs AllocationHistory, restricted to the columns swap_allocations
    fills. -/
structure AllocationHistoryRow where
  allocation_id : Option Nat
  user_id : Option Nat
  guest_name : Option String
  action : String
  previous_role : Option AllocationRole
  new_role : Option AllocationRole
  previous_team_id : Option Nat
  new_team_id : Option Nat
  notes : Option String
deriving DecidableEq, Repr

/-- handlers.rs swap_allocations lines 1054-1115: each row is updated with
    the other row's role (wrapped in Some), team_id, speaker-role fields and
    is_chair through update_allocation's COALESCE semantics, then two
    history entries with action "swapped" and mutual notes are appended.
    Returns (updated first row, updated second row, appended history). -/
def swap_allocations (a1 a2 : Allocation) :
    Allocation × Allocation × List AllocationHistoryRow :=
  (update_allocation a1 (some a2.role) a2.team_id a2.two_team_speaker_role
      a2.four_team_speaker_role a2.is_chair,
    update_allocation a2 (some a1.role) a1.team_id a1.two_team_speaker_role
      a1.four_team_speaker_role a1.is_chair,
    [⟨some a1.id, a1.user_id, a1.guest_name, "swapped", some a1.role,
        some a2.role, a1.team_id, a2.team_id,
        some ("Swapped with allocation " ++ toString a2.id)⟩,
      ⟨some a2.id, a2.user_id, a2.guest_name, "swapped", some a2.role,
        some a1.role, a2.team_id, a1.team_id,
        some ("Swapped with allocation " ++ toString a1.id)⟩])

/- ============================================================ -/
/- Tabulation service: ballot submission (handlers.rs submit_ballot)
                                                                 -/
/- ============================================================ -/

/-- The rust_decimal Decimal type, modelled as the rationals. -/
abbrev Decimal := ℚ

/-- A double-precision floating point value as it reaches the handler:
    either a special value (NaN, an infinity) or a finite (dyadic)
    rational. -/
inductive F64 where
  | nan
  | posInf
  | negInf
  | finite (q : ℚ)
deriving DecidableEq, Repr

/-- The largest magnitude representable by rust_decimal (96-bit unsigned
    mantissa at scale 0). -/
def decimalMax : ℚ := ((2 : ℤ) ^ 96 - 1 : ℤ)

/-- Models rust_decimal's Decimal::from_f64_retain at the level the claims
    need: it returns None exactly on NaN, the infinities and finite values
    whose magnitude exceeds the representable range, and Some of the value
    otherwise (truncation of excess precision of representable finite
    values is not modelled). -/
def from_f64_retain : F64 → Option Decimal
  | F64.nan => none
  | F64.posInf => none
  | F64.negInf => none
  | F64.finite q => if |q| ≤ decimalMax then some q else none

/-- handlers.rs submit_ballot line 1466: the stored score is the converted
    value, with the constant Decimal 75 substituted when the conversion
    fails (unwrap_or_else). -/
def storedScore (x : F64) : Decimal :=
  (from_f64_retain x).getD 75

/-- models.rs SpeakerScoreInput. -/
structure SpeakerScoreInput where
  allocation_id : Nat
  score : F64
  feedback : Option String
deriving DecidableEq, Repr

/-- models.rs TeamRankingInput. -/
structure TeamRankingInput where
  team_id : Nat
  rank : Int
  is_winner : Option Bool
deriving DecidableEq, Repr

/-- models.rs SubmitBallotRequest, minus the match id (the state below is
    already per-ballot). -/
structure SubmitBallotPayload where
  speaker_scores : List SpeakerScoreInput
  team_rankings : List TeamRankingInput
  notes : Option String
deriving DecidableEq, Repr

/-- A stored speaker_scores row for the ballot. -/
structure SpeakerScoreRow where
  allocation_id : Nat
  score : Decimal
deriving DecidableEq, Repr

/-- A stored team_rankings row for the ballot. -/
structure TeamRankingRow where
  team_id : Nat
  rank : Int
  is_winner : Option Bool
deriving DecidableEq, Repr

/-- The database state submit_ballot mutates, restricted to one ballot:
    its speaker_scores rows, its team_rankings rows, and the ballot row's
    is_submitted flag and notes. -/
structure BallotState where
  scores : List SpeakerScoreRow
  rankings : List TeamRankingRow
  is_submitted : Bool
  notes : Option String
deriving DecidableEq, Repr

/-- handlers.rs submit_ballot lines 1431-1445: sort the ranks, collect them
    through a set, and compare lengths; the payload is rejected when a rank
    value repeats.  The number of distinct values is the length of the
    deduplicated list, independent of the sort. -/
def ranks_have_duplicate (ranks : List Int) : Bool :=
  decide (ranks.dedup.length ≠ ranks.length)

/-- Outcome of the submit_ballot handler, by HTTP status. -/
inductive SubmitResult where
  | badRequest (msg : String)
  | serverError (msg : String)
  | ok
deriving DecidableEq, Repr

/-- The insert loop of handlers.rs lines 1460-1477: each speaker score is
    inserted by its own database statement; the first failure aborts the
    handler with a 500, leaving the earlier inserts in place.  The oracle
    gives the success of each numbered database statement; the returned
    counter is the next statement number. -/
def insertScoresLoop (oracle : Nat → Bool) :
    List SpeakerScoreInput → BallotState → Nat →
      Option String × BallotState × Nat
  | [], st, k => (none, st, k)
  | si :: rest, st, k =>
      if oracle k then
        insertScoresLoop oracle rest
          { st with scores :=
              st.scores ++ [⟨si.allocation_id, storedScore si.score⟩] }
          (k + 1)
      else (some "Failed to save speaker score", st, k + 1)

/-- The insert loop of handlers.rs lines 1479-1496 for team rankings,
    analogous to insertScoresLoop. -/
def insertRankingsLoop (oracle : Nat → Bool) :
    List TeamRankingInput → BallotState → Nat →
      Option String × BallotState × Nat
  | [], st, k => (none, st, k)
  | ri :: rest, st, k =>
      if oracle k then
        insertRankingsLoop oracle rest
          { st with rankings :=
              st.rankings ++ [⟨ri.team_id, ri.rank, ri.is_winner⟩] }
          (k + 1)
      else (some "Failed to save team ranking", st, k + 1)

/-- handlers.rs submit_ballot lines 1431-1508, from the unique-rank check
    to the marking of the ballot as submitted.  There is no enclosing
    transaction in the Rust code: every database statement commits on its
    own, so the embedding threads the state through the statements and an
    oracle decides which statements succeed.  Statement numbering: 0 is the
    delete of the ballot's speaker scores and 1 the delete of its team
    rankings — the handler discards the outcome of both deletes (.ok()) and
    continues either way; then come the score inserts, the ranking inserts,
    and finally the UPDATE marking the ballot submitted (database.rs
    861-865: is_submitted = true, notes = COALESCE($3, notes), so an absent
    payload notes keeps the stored notes), each of which aborts the handler
    with a 500 on failure, leaving all earlier effects in place. -/
def submit_ballot_run (init : BallotState) (p : SubmitBallotPayload)
    (oracle : Nat → Bool) : SubmitResult × BallotState :=
  if ranks_have_duplicate (p.team_rankings.map (fun r => r.rank)) then
    (SubmitResult.badRequest "Rankings must be unique (no ties)", init)
  else
    let s1 := if oracle 0 then { init with scores := [] } else init
    let s2 := if oracle 1 then { s1 with rankings := [] } else s1
    match insertScoresLoop oracle p.speaker_scores s2 2 with
    | (some msg, st, _) => (SubmitResult.serverError msg, st)
    | (none, st, k) =>
        match insertRankingsLoop oracle p.team_rankings st k with
        | (some msg, st2, _) => (SubmitResult.serverError msg, st2)
        | (none, st2, k2) =>
            if oracle k2 then
              (SubmitResult.ok,
                { st2 with
                    is_submitted := true
                    notes := coalesceOpt p.notes st2.notes })
            else (SubmitResult.serverError "Failed to submit ballot", st2)

/- ============================================================ -/
/- Tabulation service: aggregation and final ranking
   (database.rs get_match_team_rankings, handlers.rs submit_ballot
   lines 1510-1540)                                              -/
/- ============================================================ -/

/-- A row of the ballots table, restricted to the columns the aggregation
    query reads. -/
structure BallotRow where
  id : Nat
  match_id : Nat
  is_submitted : Bool
  is_voting : Bool
deriving DecidableEq, Repr

/-- A row of the team_rankings table, restricted to the columns the
    aggregation query reads. -/
structure TeamRankingDbRow where
  ballot_id : Nat
  team_id : Nat
  rank : Int
deriving DecidableEq, Repr

/-- The two tables the aggregation query joins. -/
structure TabDb where
  ballots : List BallotRow
  team_rankings : List TeamRankingDbRow
deriving DecidableEq, Repr

/-- The JOIN/WHERE part of get_match_team_rankings (database.rs
    1013-1031): team_rankings rows whose ballot belongs to the match, is
    submitted and is voting. -/
def relevantRankings (db : TabDb) (mid : Nat) : List TeamRankingDbRow :=
  db.team_rankings.filter (fun tr =>
    db.ballots.any (fun b =>
      decide (b.id = tr.ballot_id) && decide (b.match_id = mid)
        && b.is_submitted && b.is_voting))

/-- The ranks the relevant rows give to team t. -/
def ranksFor (db : TabDb) (mid t : Nat) : List Int :=
  ((relevantRankings db mid).filter (fun tr => decide (tr.team_id = t))).map
    (fun tr => tr.rank)

/-- AVG(tr.rank::float8) for one GROUP BY group: the sum of the group's
    ranks divided by their count (mkRat n d is n / d; see avgRank_eq_div).
    The SQL average is computed in float8; it is modelled exactly in the
    rationals (every group at issue averages a few small integers, where
    float8 arithmetic is exact). -/
def avgRank (db : TabDb) (mid t : Nat) : ℚ :=
  mkRat (ranksFor db mid t).sum (ranksFor db mid t).length

/-- The distinct team ids of the GROUP BY — the teams that received at
    least one relevant ranking. -/
def rankedTeams (db : TabDb) (mid : Nat) : List Nat :=
  ((relevantRankings db mid).map (fun tr => tr.team_id)).dedup

/-- The postcondition of get_match_team_rankings' SQL query: the output
    lists each ranked team exactly once together with its average rank,
    ordered so that averages ascend.  ORDER BY avg_rank ASC has no
    secondary sort key, so rows with equal averages may appear in any
    order: the query denotes a relation, not a function.  (The Rust
    filter_map discarding NULL averages is a no-op: a GROUP BY group is
    never empty, so AVG is never NULL.) -/
def validAggOutput (db : TabDb) (mid : Nat) (out : List (Nat × ℚ)) : Prop :=
  (out.map Prod.fst).Perm (rankedTeams db mid) ∧
  (∀ p ∈ out, p.2 = avgRank db mid p.1) ∧
  out.Pairwise (fun p q => p.2 ≤ q.2)

instance validAggOutput_decidable (db : TabDb) (mid : Nat)
    (out : List (Nat × ℚ)) : Decidable (validAggOutput db mid out) := by
  unfold validAggOutput
  infer_instance

/-- handlers.rs submit_ballot lines 1519-1539: the first loop stores
    final_rank = position + 1 for each team of the aggregation output, in
    output order; the second loop stores rankings.len() + 1 for every team
    of the match that is absent from the output. -/
def final_rank_after_aggregation (out : List (Nat × ℚ)) (t : Nat) : Nat :=
  if t ∈ out.map Prod.fst then (out.map Prod.fst).indexOf t + 1
  else out.length + 1

/-- The order the spec's words describe for the same aggregation: teams
    sorted by average rank ascending, ties broken stably by team id.
    Stated as a second definition only to compare the implementation
    against it. -/
def specLe (db : TabDb) (mid : Nat) (t u : Nat) : Prop :=
  avgRank db mid t < avgRank db mid u ∨
    (avgRank db mid t = avgRank db mid u ∧ t ≤ u)

instance specLe_decidable (db : TabDb) (mid : Nat) :
    DecidableRel (specLe db mid) := by
  unfold specLe
  infer_instance

/-- The spec's canonical output order: ranked teams sorted by
    (average rank, team id). -/
def specOrder (db : TabDb) (mid : Nat) : List Nat :=
  (rankedTeams db mid).insertionSort (specLe db mid)

/-- The final rank the spec's words assign to a team. -/
def spec_final_rank (db : TabDb) (mid : Nat) (t : Nat) : Nat :=
  if t ∈ specOrder db mid then (specOrder db mid).indexOf t + 1
  else (specOrder db mid).length + 1

end Tabrela

namespace Tabrela

/- ============================================================ -/
/- Theorems for claim C1                                         -/
/- ============================================================ -/

/-- C1 counterexample.  Starting from a freshly created match
    (both flags false, as create_match inserts them), an admin releases
    scores (which coerces rankings on), then sends a request that only sets
    rankings_released = false.  The stored pair becomes
    (scores_released = true, rankings_released = false), violating the
    implication the claim asserts after every toggle: the coercion in
    toggle_release inspects only the request payload, never the stored
    scores_released. -/
theorem toggle_release_violates_monotonicity :
    (toggle_release
        (toggle_release ⟨false, false⟩ ⟨some true, none⟩)
        ⟨none, some false⟩)
      = ⟨true, false⟩ := by
  decide

/-- C1 (amended): the coercion applies only to the request values: whenever
    the request sets scores_released = true, the stored rankings_released is
    true after the call; and the implication scores_released ⇒
    rankings_released is preserved by a toggle provided the request does not
    set rankings_released = false while scores_released stays true (i.e. if
    the pair satisfied the implication before, and the request either sets
    scores_released = true, or sets scores_released = false, or does not ask
    to turn rankings_released off, the implication still holds after). -/
theorem toggle_release_coercion
    (m : MatchRelease) (p : ReleaseToggleRequest) :
    (p.scores_released = some true →
      (toggle_release m p).rankings_released = true) ∧
    ((m.scores_released = true → m.rankings_released = true) →
      (p.scores_released = some true ∨ p.scores_released = some false ∨
        p.rankings_released ≠ some false) →
      ((toggle_release m p).scores_released = true →
        (toggle_release m p).rankings_released = true)) := by
  obtain ⟨ms, mr⟩ := m
  obtain ⟨ps, pr⟩ := p
  constructor
  · intro h
    subst h
    simp [toggle_release, update_match_release, coalesceB]
  · intro hinv hcase
    rcases ps with _ | ⟨_ | _⟩ <;> rcases pr with _ | ⟨_ | _⟩ <;>
      rcases ms <;> rcases mr <;>
      simp_all [toggle_release, update_match_release, coalesceB]

/-- C1 witness: instantiating the amended theorem at a concrete match and
    request that releases scores, discharging its hypotheses. -/
theorem toggle_release_coercion_witness :
    (toggle_release ⟨false, false⟩ ⟨some true, none⟩).rankings_released
      = true :=
  (toggle_release_coercion ⟨false, false⟩ ⟨some true, none⟩).1 rfl

/- ============================================================ -/
/- Theorems for claim C7                                         -/
/- ============================================================ -/

/-- C7 counterexample.  A row already exists for the (event_id, user_id)
    pair with is_available = false (e.g. the user set themselves
    unavailable).  After the admin check-in the stored record still has
    is_available = false: the ON CONFLICT update branch of check_in_user
    never touches is_available, contradicting the claim that after every
    call the record has is_available = true. -/
theorem check_in_user_keeps_stale_availability :
    (check_in_user (some ⟨false, false, none, none⟩) true 7 100)
      = ⟨false, true, some 7, some 100⟩ := by
  decide

/-- C7 (amended): check_in_user always leaves is_checked_in equal to the
    given value and checked_in_by set to the acting admin (nulled when
    clearing the check-in); is_available is set to true only when no row
    existed for the (event_id, user_id) pair, while on an existing row the
    stored is_available is left unchanged. -/
theorem check_in_user_spec
    (existing : Option AttendanceRecord) (b : Bool) (admin now : Nat) :
    (check_in_user existing b admin now).is_checked_in = b ∧
    (check_in_user existing b admin now).checked_in_by
      = (if b then some admin else none) ∧
    (check_in_user existing b admin now).checked_in_at
      = (if b then some now else none) ∧
    (existing = none → (check_in_user existing b admin now).is_available
      = true) ∧
    (∀ r, existing = some r →
      (check_in_user existing b admin now).is_available = r.is_available) := by
  rcases existing with _ | r <;> rcases b <;>
    simp [check_in_user]

/-- C7 witness: instantiating the amended theorem on a fresh pair (no
    existing row), checking in user with admin 3 at time 50, and discharging
    the fresh-row hypothesis. -/
theorem check_in_user_spec_witness :
    (check_in_user none true 3 50).is_checked_in = true ∧
    (check_in_user none true 3 50).is_available = true :=
  ⟨(check_in_user_spec none true 3 50).1,
    (check_in_user_spec none true 3 50).2.2.2.1 rfl⟩

/- ============================================================ -/
/- Theorems for claim C8                                         -/
/- ============================================================ -/

theorem wrap32_eq_self (x : Int) (h : i32range x) : wrap32 x = x := by
  obtain ⟨h1, h2⟩ := h
  unfold wrap32
  omega

theorem merit_inv_init : MeritInv meritInit := by
  refine ⟨?_, ?_, rfl, fun _ => rfl⟩ <;> simp [meritInit]

theorem merit_inv_update (s : MeritState) (a : Nat) (c : Int)
    (h : MeritInv s) : MeritInv (update_merit s a c) := by
  obtain ⟨hrows, hchain, hlast, hsum⟩ := h
  refine ⟨?_, ?_, ?_, ?_⟩
  · intro r hr
    simp only [update_merit, List.mem_append, List.mem_singleton] at hr
    rcases hr with hr | hr
    · exact hrows r hr
    · subst hr; rfl
  · simp only [update_merit]
    rw [List.chain'_append]
    refine ⟨hchain, List.chain'_singleton _, ?_⟩
    intro x hx y hy
    simp only [List.head?_cons, Option.mem_def, Option.some.injEq] at hy
    subst hy
    rw [← hlast]
    rw [Option.mem_def] at hx
    rw [hx]
    rfl
  · simp [update_merit]
  · intro hall
    have hrange : i32range (s.merit_points.getD 0 + c) :=
      hall ⟨a, c, s.merit_points.getD 0,
          wrap32 (s.merit_points.getD 0 + c)⟩
        (by simp [update_merit])
    have hold : ∀ r ∈ s.history,
        i32range (r.previous_total + r.change_amount) := by
      intro r hr
      exact hall r (by simp [update_merit, hr])
    have hs := hsum hold
    have hw := wrap32_eq_self _ hrange
    simp only [update_merit, Option.getD_some, List.map_append,
      List.sum_append, List.map_cons, List.map_nil, List.sum_cons,
      List.sum_nil]
    rw [hw, hs]
    ring

theorem merit_inv_run (ops : List (Nat × Int)) (s : MeritState)
    (h : MeritInv s) : MeritInv (run_merit s ops) := by
  induction ops generalizing s with
  | nil => exact h
  | cons op ops ih =>
      exact ih _ (merit_inv_update s op.1 op.2 h)

/-- C8 counterexample.  change_amount is an unvalidated i32 and the Rust
    addition previous_total + change_amount wraps in release builds: two
    adjustments of +2147483647 starting from a fresh user leave
    merit_points = -2, while the history's change_amounts sum to
    4294967294, and the second history row has new_total = -2 which is not
    previous_total + change_amount — breaking both claimed ledger
    equalities. -/
theorem merit_ledger_overflow_wraps :
    (run_merit meritInit
        [(1, 2147483647), (1, 2147483647)]).merit_points.getD 0 = -2 ∧
    ((run_merit meritInit
        [(1, 2147483647), (1, 2147483647)]).history.map
          (fun r => r.change_amount)).sum = 4294967294 ∧
    (⟨1, 2147483647, 2147483647, -2⟩ : MeritHistoryRow)
      ∈ (run_merit meritInit
          [(1, 2147483647), (1, 2147483647)]).history ∧
    ((-2 : Int) ≠ 2147483647 + 2147483647) := by
  refine ⟨by decide, by decide, by decide, by decide⟩

/-- C8 (amended): every admin merit adjustment (update_merit, which runs
    as one explicit database transaction) writes new_total computed as the
    wrapping 32-bit sum of previous_total and the unvalidated i32
    change_amount, and appends exactly one history row recording both
    totals; after any sequence of adjustments starting from a fresh user,
    adjacent history rows always chain (next.previous_total =
    prev.new_total) and every row records the wrapping sum; and whenever no
    recorded addition leaves the i32 range, the claimed exact ledger holds:
    merit_points equal the sum of all change_amounts and every row
    satisfies new_total = previous_total + change_amount. -/
theorem merit_ledger_consistency (ops : List (Nat × Int)) :
    (∀ r ∈ (run_merit meritInit ops).history,
      r.new_total = wrap32 (r.previous_total + r.change_amount)) ∧
    (run_merit meritInit ops).history.Chain'
      (fun a b => b.previous_total = a.new_total) ∧
    (∀ s a c, (update_merit s a c).history
      = s.history ++ [⟨a, c, s.merit_points.getD 0,
          wrap32 (s.merit_points.getD 0 + c)⟩]) ∧
    ((∀ r ∈ (run_merit meritInit ops).history,
        i32range (r.previous_total + r.change_amount)) →
      ((run_merit meritInit ops).merit_points.getD 0
          = ((run_merit meritInit ops).history.map
              (fun r => r.change_amount)).sum ∧
        ∀ r ∈ (run_merit meritInit ops).history,
          r.new_total = r.previous_total + r.change_amount)) := by
  have h := merit_inv_run ops meritInit merit_inv_init
  refine ⟨h.1, h.2.1, fun s a c => rfl, ?_⟩
  intro hall
  refine ⟨h.2.2.2 hall, ?_⟩
  intro r hr
  rw [h.1 r hr]
  exact wrap32_eq_self _ (hall r hr)

/-- C8 witness: two adjustments (+5 then +3) against a fresh user stay in
    the i32 range, so the exact ledger equality holds: the stored total
    equals the sum of the change_amounts. -/
theorem merit_ledger_consistency_witness :
    (run_merit meritInit [(1, 5), (2, 3)]).merit_points.getD 0
      = ((run_merit meritInit [(1, 5), (2, 3)]).history.map
          (fun r => r.change_amount)).sum :=
  ((merit_ledger_consistency [(1, 5), (2, 3)]).2.2.2 (by decide)).1

/- ============================================================ -/
/- Theorems for claim C9                                         -/
/- ============================================================ -/

theorem run_email_otp_bound (gs : List Nat) (row : Option OtpRow) :
    (run_email_otp row gs).1 ≤ otpCapacity row := by
  induction gs generalizing row with
  | nil =>
      simp [run_email_otp]
  | cons g gs ih =>
      rcases row with _ | r
      · simpa [run_email_otp, verify_email_otp, otpCapacity]
          using ih none
      · by_cases hA : 5 ≤ r.attempts
        · have h2 := ih (some r)
          simp only [run_email_otp, verify_email_otp, hA, if_pos hA]
          simp only [if_pos hA] at h2 ⊢
          simpa [otpCapacity] using h2
        · by_cases hO : r.otp = g
          · have h2 := ih none
            simp only [run_email_otp, verify_email_otp, if_neg hA, if_pos hO]
            simp only [otpCapacity] at h2 ⊢
            omega
          · have h2 := ih (some { r with attempts := r.attempts + 1 })
            simp only [run_email_otp, verify_email_otp, if_neg hA, if_neg hO]
            simp only [otpCapacity] at h2 ⊢
            omega

/-- C9: on a single OTP row, once attempts has reached 5 every verification
    is rejected even when the presented OTP is correct — both on the email
    verification path (verify_email_otp) and on the password reset path
    (reset_password, which answers 429); and over any sequence of
    verification attempts against a fresh row, no more than 5 failed
    attempts are accepted (processed with an increment). -/
theorem otp_attempt_bound :
    (∀ (r : OtpRow) (given : Nat), 5 ≤ r.attempts →
      (verify_email_otp (some r) given).1 = false) ∧
    (∀ (r : ResetRow) (given : Nat), 5 ≤ r.attempts → r.used = false →
      (reset_password (some r) given).1 = ResetOutcome.tooManyRequests) ∧
    (∀ (gs : List Nat) (r : OtpRow), r.attempts = 0 →
      (run_email_otp (some r) gs).1 ≤ 5) := by
  refine ⟨?_, ?_, ?_⟩
  · intro r given h
    simp [verify_email_otp, if_pos h]
  · intro r given h hu
    simp [reset_password, hu, if_pos h]
  · intro gs r h
    have := run_email_otp_bound gs (some r)
    simp only [otpCapacity, h] at this
    omega

/-- C9 witness: a row with attempts = 5 rejects even the correct OTP on
    both paths, and seven attempts against a fresh row accept at most 5
    failures. -/
theorem otp_attempt_bound_witness :
    (verify_email_otp (some ⟨123, 5⟩) 123).1 = false ∧
    (reset_password (some ⟨123, 5, false⟩) 123).1
      = ResetOutcome.tooManyRequests ∧
    (run_email_otp (some ⟨123, 0⟩) [1, 2, 3, 4, 5, 6, 123]).1 ≤ 5 :=
  ⟨otp_attempt_bound.1 ⟨123, 5⟩ 123 (by decide),
    otp_attempt_bound.2.1 ⟨123, 5, false⟩ 123 (by decide) rfl,
    otp_attempt_bound.2.2 [1, 2, 3, 4, 5, 6, 123] ⟨123, 0⟩ rfl⟩

/- ============================================================ -/
/- Theorems for claim C2                                         -/
/- ============================================================ -/

theorem insertScoresLoop_success (oracle : Nat → Bool)
    (hall : ∀ k, oracle k = true) (rows : List SpeakerScoreInput) :
    ∀ (st : BallotState) (k : Nat),
      insertScoresLoop oracle rows st k
        = (none,
            { st with scores := (st.scores ++ rows.map
                (fun si => ⟨si.allocation_id, storedScore si.score⟩)) },
            k + rows.length) := by
  induction rows with
  | nil => intro st k; simp [insertScoresLoop]
  | cons si rest ih =>
      intro st k
      rw [insertScoresLoop, hall k, if_pos rfl, ih]
      simp [List.append_assoc]
      omega

theorem insertRankingsLoop_success (oracle : Nat → Bool)
    (hall : ∀ k, oracle k = true) (rows : List TeamRankingInput) :
    ∀ (st : BallotState) (k : Nat),
      insertRankingsLoop oracle rows st k
        = (none,
            { st with rankings := (st.rankings ++ rows.map
                (fun ri => ⟨ri.team_id, ri.rank, ri.is_winner⟩)) },
            k + rows.length) := by
  induction rows with
  | nil => intro st k; simp [insertRankingsLoop]
  | cons ri rest ih =>
      intro st k
      rw [insertRankingsLoop, hall k, if_pos rfl, ih]
      simp [List.append_assoc]
      omega

/-- C2 counterexample.  A previously submitted ballot holds a score of 70
    for allocation 1 and a ranking for team 10.  The adjudicator resubmits;
    the deletes and the speaker-score insert succeed but the team-ranking
    insert fails (statement 3).  The handler answers 500, yet the stored
    state now has the new score, no rankings at all, and the old submitted
    flag — the previously stored scores and rankings are NOT unchanged, so
    the five steps are not executed atomically (indeed the Rust handler
    opens no transaction). -/
theorem submit_ballot_not_atomic :
    (submit_ballot_run
        ⟨[⟨1, 70⟩], [⟨10, 1, none⟩], true, some "old"⟩
        ⟨[⟨1, F64.finite 80, none⟩], [⟨10, 1, none⟩], some "new"⟩
        (fun k => decide (k ≠ 3)))
      = (SubmitResult.serverError "Failed to save team ranking",
          ⟨[⟨1, 80⟩], [], true, some "old"⟩) ∧
    (⟨[⟨1, 80⟩], [], true, some "old"⟩ : BallotState)
      ≠ ⟨[⟨1, 70⟩], [⟨10, 1, none⟩], true, some "old"⟩ := by
  constructor
  · decide
  · decide

/-- C2 (amended): ballot submission is not transactional — the deletes,
    inserts and the submitted-flag update run as separate statements, delete
    failures are ignored, and a later failure leaves earlier effects in
    place (see the counterexample); when every statement succeeds, the net
    effect is the full replacement the spec describes: the ballot ends with
    exactly the new speaker scores, exactly the new team rankings, the
    submitted flag set, and the payload's notes when present (an absent
    payload notes keeps the stored notes, by the COALESCE in the final
    UPDATE). -/
theorem submit_ballot_all_statements_succeed
    (init : BallotState) (p : SubmitBallotPayload) (oracle : Nat → Bool)
    (hall : ∀ k, oracle k = true)
    (huniq : ranks_have_duplicate
      (p.team_rankings.map (fun r => r.rank)) = false) :
    submit_ballot_run init p oracle
      = (SubmitResult.ok,
          ⟨p.speaker_scores.map
              (fun si => ⟨si.allocation_id, storedScore si.score⟩),
            p.team_rankings.map
              (fun ri => ⟨ri.team_id, ri.rank, ri.is_winner⟩),
            true, coalesceOpt p.notes init.notes⟩) := by
  rw [submit_ballot_run, huniq]
  simp only [Bool.false_eq_true, if_false, hall 0, hall 1, if_pos rfl,
    insertScoresLoop_success oracle hall, insertRankingsLoop_success oracle
    hall, hall (2 + p.speaker_scores.length + p.team_rankings.length),
    if_pos rfl]
  simp

/-- C2 witness: instantiating the amended theorem on an all-success
    schedule. -/
theorem submit_ballot_all_statements_succeed_witness :
    submit_ballot_run ⟨[], [], false, none⟩
        ⟨[⟨1, F64.finite 80, none⟩], [⟨10, 1, none⟩, ⟨11, 2, none⟩],
          some "n"⟩
        (fun _ => true)
      = (SubmitResult.ok,
          ⟨[⟨1, 80⟩], [⟨10, 1, none⟩, ⟨11, 2, none⟩], true, some "n"⟩) := by
  rw [submit_ballot_all_statements_succeed _ _ _ (fun _ => rfl) (by decide)]
  decide

/- ============================================================ -/
/- Theorems for claim C5                                         -/
/- ============================================================ -/

/-- C5 counterexample.  A ballot whose two rankings carry the (duplicate
    free) ranks 1 and 3 is accepted and stored verbatim: the handler only
    checks for duplicates, never that the ranks form 1..N, so the stored
    ranks of this submitted voting ballot are not the claimed unique 1..N
    (here N = 2). -/
theorem submit_ballot_accepts_out_of_range_ranks :
    (submit_ballot_run ⟨[], [], false, none⟩
        ⟨[], [⟨10, 1, none⟩, ⟨11, 3, none⟩], none⟩ (fun _ => true)).1
      = SubmitResult.ok ∧
    ((submit_ballot_run ⟨[], [], false, none⟩
        ⟨[], [⟨10, 1, none⟩, ⟨11, 3, none⟩], none⟩ (fun _ => true)).2.rankings.map
          (fun r => r.rank))
      = [1, 3] ∧
    ¬ ((submit_ballot_run ⟨[], [], false, none⟩
        ⟨[], [⟨10, 1, none⟩, ⟨11, 3, none⟩], none⟩ (fun _ => true)).2.rankings.map
          (fun r => r.rank)).Perm [1, 2] := by
  refine ⟨by decide, by decide, by decide⟩

/-- C5 (amended): a payload whose team_rankings contain a duplicate rank
    value is rejected with 400 and the message "Rankings must be unique
    (no ties)" and the stored state is untouched; the handler's
    length-after-dedup test flags exactly the payloads whose rank list is
    not duplicate-free; and on a successful submission (all statements
    succeed) the stored ranks of the ballot are pairwise distinct — though
    not necessarily the values 1..N (see the counterexample). -/
theorem submit_ballot_duplicate_ranks_rejected :
    (∀ (init : BallotState) (p : SubmitBallotPayload) (oracle : Nat → Bool),
      ranks_have_duplicate (p.team_rankings.map (fun r => r.rank)) = true →
      submit_ballot_run init p oracle
        = (SubmitResult.badRequest "Rankings must be unique (no ties)",
            init)) ∧
    (∀ ranks : List Int,
      ranks_have_duplicate ranks = true ↔ ¬ ranks.Nodup) ∧
    (∀ (init : BallotState) (p : SubmitBallotPayload) (oracle : Nat → Bool),
      (∀ k, oracle k = true) →
      (submit_ballot_run init p oracle).1 = SubmitResult.ok →
      ((submit_ballot_run init p oracle).2.rankings.map
        (fun r => r.rank)).Nodup) := by
  have hchar : ∀ ranks : List Int,
      ranks_have_duplicate ranks = true ↔ ¬ ranks.Nodup := by
    intro ranks
    rw [ranks_have_duplicate, decide_eq_true_iff]
    constructor
    · intro h hnd
      exact h (by rw [List.dedup_eq_self.mpr hnd])
    · intro h hlen
      exact h (by
        rw [← (ranks.dedup_sublist.eq_of_length hlen)]
        exact ranks.nodup_dedup)
  refine ⟨?_, hchar, ?_⟩
  · intro init p oracle h
    rw [submit_ballot_run, h]
    simp
  · intro init p oracle hall hok
    by_cases hdup :
        ranks_have_duplicate (p.team_rankings.map (fun r => r.rank)) = true
    · rw [submit_ballot_run, hdup] at hok
      simp at hok
    · have hdup' : ranks_have_duplicate
          (p.team_rankings.map (fun r => r.rank)) = false := by
        revert hdup; cases ranks_have_duplicate
          (p.team_rankings.map (fun r => r.rank)) <;> simp
      rw [submit_ballot_all_statements_succeed init p oracle hall hdup']
      have hnd : (p.team_rankings.map (fun r => r.rank)).Nodup := by
        by_contra hc
        exact absurd ((hchar _).mpr hc) (by rw [hdup']; simp)
      simpa [List.map_map, Function.comp] using hnd

/-- C5 witness: instantiating the amended theorem: a duplicate-rank payload
    is rejected with the exact message, the check flags a concrete
    duplicate list, and a successful submission stores distinct ranks. -/
theorem submit_ballot_duplicate_ranks_rejected_witness :
    (submit_ballot_run ⟨[], [], false, none⟩
        ⟨[], [⟨10, 1, none⟩, ⟨11, 1, none⟩], none⟩ (fun _ => true)
      = (SubmitResult.badRequest "Rankings must be unique (no ties)",
          ⟨[], [], false, none⟩)) ∧
    (ranks_have_duplicate [1, 1] = true) ∧
    ((submit_ballot_run ⟨[], [], false, none⟩
        ⟨[], [⟨10, 1, none⟩, ⟨11, 2, none⟩], none⟩ (fun _ => true)).2.rankings.map
          (fun r => r.rank)).Nodup :=
  ⟨submit_ballot_duplicate_ranks_rejected.1 ⟨[], [], false, none⟩
      ⟨[], [⟨10, 1, none⟩, ⟨11, 1, none⟩], none⟩ (fun _ => true) (by decide),
    (submit_ballot_duplicate_ranks_rejected.2.1 [1, 1]).mpr (by decide),
    submit_ballot_duplicate_ranks_rejected.2.2 ⟨[], [], false, none⟩
      ⟨[], [⟨10, 1, none⟩, ⟨11, 2, none⟩], none⟩ (fun _ => true)
      (fun _ => rfl) (by decide)⟩

/- ============================================================ -/
/- Theorems for claim C10                                        -/
/- ============================================================ -/

/-- C10: a speaker score whose floating-point value cannot be converted to
    a Decimal is silently stored as the constant Decimal 75: the conversion
    fallback substitutes 75 whenever from_f64_retain yields none (in
    particular on NaN), and a full submission containing a NaN score is not
    rejected — it succeeds and stores 75 in place of the submitted
    value. -/
theorem unconvertible_score_stored_as_75 :
    (∀ x : F64, from_f64_retain x = none → storedScore x = 75) ∧
    from_f64_retain F64.nan = none ∧
    submit_ballot_run ⟨[], [], false, none⟩
        ⟨[⟨1, F64.nan, none⟩], [⟨10, 1, none⟩], none⟩ (fun _ => true)
      = (SubmitResult.ok, ⟨[⟨1, 75⟩], [⟨10, 1, none⟩], true, none⟩) := by
  refine ⟨?_, rfl, by decide⟩
  intro x h
  rw [storedScore, h]
  rfl

/-- C10 witness: the fallback applied to NaN. -/
theorem unconvertible_score_stored_as_75_witness :
    storedScore F64.nan = 75 :=
  unconvertible_score_stored_as_75.1 F64.nan rfl

/- ============================================================ -/
/- Theorems for claim C6                                         -/
/- ============================================================ -/

/-- C6 counterexample.  A request carrying BOTH a user_id and a guest_name
    is not rejected: the only guard (handlers.rs 713-719) fires when both
    are absent, so with an existing match, series and user the allocation
    is created, carrying both identities. -/
theorem create_allocation_accepts_both_identities :
    create_allocation
        ⟨true, true, TeamFormat.twoTeam, fun _ => true, [], fun _ => false,
          42⟩
        ⟨some 1, some "Guest", AllocationRole.resource, none, none, none,
          false⟩
      = Except.ok ⟨42, some 1, some "Guest", AllocationRole.resource, none,
          none, none, some false, false⟩ := by
  rfl

/-- C6 (amended): POST /admin/allocations requires at least one of user_id
    or guest_name: a request providing neither is rejected with 400 (and no
    allocation is created); a request providing both passes this guard and
    proceeds (see the counterexample). -/
theorem create_allocation_requires_some_identity
    (ctx : AllocationContext) (p : CreateAllocationRequest)
    (hu : p.user_id = none) (hg : p.guest_name = none) :
    create_allocation ctx p
      = Except.error (400, "Either user_id or guest_name must be provided")
    := by
  rw [create_allocation, if_pos ⟨hu, hg⟩]

/-- C6 witness: the neither-identity request is rejected with 400. -/
theorem create_allocation_requires_some_identity_witness :
    create_allocation
        ⟨true, true, TeamFormat.twoTeam, fun _ => true, [], fun _ => false,
          42⟩
        ⟨none, none, AllocationRole.resource, none, none, none, false⟩
      = Except.error (400, "Either user_id or guest_name must be provided")
    :=
  create_allocation_requires_some_identity _ _ rfl rfl

/- ============================================================ -/
/- Theorems for claim C3                                         -/
/- ============================================================ -/

/-- C3 counterexample.  Swapping a speaker (team 10, prime minister) with
    a voting adjudicator (team_id NULL, no speaker role): after the swap
    the first allocation should carry the adjudicator's former NULL
    team_id, but update_allocation's COALESCE keeps the old value, so it
    still carries team 10 (and still carries the prime-minister speaker
    role). -/
theorem swap_allocations_keeps_null_fields :
    (swap_allocations
        ⟨1, some 100, none, AllocationRole.speaker, some 10,
          some TwoTeamSpeakerRole.primeMinister, none, some false, true⟩
        ⟨2, some 200, none, AllocationRole.votingAdjudicator, none, none,
          none, some true, true⟩).1.team_id
      = some 10 ∧
    (⟨2, some 200, none, AllocationRole.votingAdjudicator, none, none,
        none, some true, true⟩ : Allocation).team_id
      = none ∧
    (swap_allocations
        ⟨1, some 100, none, AllocationRole.speaker, some 10,
          some TwoTeamSpeakerRole.primeMinister, none, some false, true⟩
        ⟨2, some 200, none, AllocationRole.votingAdjudicator, none, none,
          none, some true, true⟩).1.two_team_speaker_role
      = some TwoTeamSpeakerRole.primeMinister := by
  refine ⟨by decide, by decide, by decide⟩

/-- C3 (amended): the swap exchanges role unconditionally, while team_id,
    the speaker-role fields and is_chair are exchanged through COALESCE:
    each receives the other allocation's former value when that value is
    non-NULL and is left unchanged when it is NULL; two history entries
    with action "swapped", the before/after roles and team ids, and mutual
    notes naming the other allocation are appended. -/
theorem swap_allocations_spec (a1 a2 : Allocation) :
    (swap_allocations a1 a2).1.role = a2.role ∧
    (swap_allocations a1 a2).2.1.role = a1.role ∧
    (swap_allocations a1 a2).1.team_id = coalesceOpt a2.team_id a1.team_id ∧
    (swap_allocations a1 a2).2.1.team_id
      = coalesceOpt a1.team_id a2.team_id ∧
    (swap_allocations a1 a2).1.two_team_speaker_role
      = coalesceOpt a2.two_team_speaker_role a1.two_team_speaker_role ∧
    (swap_allocations a1 a2).2.1.two_team_speaker_role
      = coalesceOpt a1.two_team_speaker_role a2.two_team_speaker_role ∧
    (swap_allocations a1 a2).1.four_team_speaker_role
      = coalesceOpt a2.four_team_speaker_role a1.four_team_speaker_role ∧
    (swap_allocations a1 a2).2.1.four_team_speaker_role
      = coalesceOpt a1.four_team_speaker_role a2.four_team_speaker_role ∧
    (swap_allocations a1 a2).1.is_chair
      = coalesceOpt a2.is_chair a1.is_chair ∧
    (swap_allocations a1 a2).2.1.is_chair
      = coalesceOpt a1.is_chair a2.is_chair ∧
    (∀ t, a2.team_id = some t →
      (swap_allocations a1 a2).1.team_id = some t) ∧
    (a2.team_id = none →
      (swap_allocations a1 a2).1.team_id = a1.team_id) ∧
    (swap_allocations a1 a2).2.2
      = [⟨some a1.id, a1.user_id, a1.guest_name, "swapped", some a1.role,
            some a2.role, a1.team_id, a2.team_id,
            some ("Swapped with allocation " ++ toString a2.id)⟩,
          ⟨some a2.id, a2.user_id, a2.guest_name, "swapped", some a2.role,
            some a1.role, a2.team_id, a1.team_id,
            some ("Swapped with allocation " ++ toString a1.id)⟩] := by
  refine ⟨rfl, rfl, rfl, rfl, rfl, rfl, rfl, rfl, rfl, rfl, ?_, ?_, rfl⟩
  · intro t ht
    simp [swap_allocations, update_allocation, coalesceOpt, ht]
  · intro ht
    simp [swap_allocations, update_allocation, coalesceOpt, ht]

/- ============================================================ -/
/- Theorems for claim C4                                         -/
/- ============================================================ -/

theorem avgRank_eq_div (db : TabDb) (mid t : Nat) :
    avgRank db mid t
      = ((ranksFor db mid t).sum : ℚ) / ((ranksFor db mid t).length : ℚ) := by
  unfold avgRank
  exact Rat.mkRat_eq_div _ _

/-- C4 counterexample.  Match 7 has two submitted voting ballots: ballot 1
    ranks team 10 first and team 20 second, ballot 2 the reverse, so both
    teams average 3/2.  ORDER BY avg_rank ASC admits the output
    [(20, 3/2), (10, 3/2)] (averages ascend), and on that output the
    handler stores final_rank 1 for team 20 — whereas the claimed stable
    tie-break by team id assigns team 20 final_rank 2.  The query has no
    secondary sort key, so the claimed tie-break is not implemented. -/
theorem final_rank_tiebreak_not_by_team_id :
    validAggOutput
        ⟨[⟨1, 7, true, true⟩, ⟨2, 7, true, true⟩],
          [⟨1, 10, 1⟩, ⟨1, 20, 2⟩, ⟨2, 10, 2⟩, ⟨2, 20, 1⟩]⟩ 7
        [(20, mkRat 3 2), (10, mkRat 3 2)] ∧
    final_rank_after_aggregation [(20, mkRat 3 2), (10, mkRat 3 2)] 20 = 1 ∧
    spec_final_rank
        ⟨[⟨1, 7, true, true⟩, ⟨2, 7, true, true⟩],
          [⟨1, 10, 1⟩, ⟨1, 20, 2⟩, ⟨2, 10, 2⟩, ⟨2, 20, 1⟩]⟩ 7 20
      = 2 := by
  refine ⟨?_, by decide, by decide⟩
  decide

/-- C4 (amended): on every output the aggregation query may produce (ranked
    teams in some order of ascending average), the handler assigns the
    ranked teams final_rank values 1..N by output position — so a strictly
    smaller average always receives a strictly smaller final_rank, while
    teams with equal averages are ordered arbitrarily (no tie-break by team
    id; see the counterexample) — and every team of the match with no
    rankings receives final_rank = N+1, N the number of ranked teams. -/
theorem final_rank_assignment (db : TabDb) (mid : Nat)
    (out : List (Nat × ℚ)) (h : validAggOutput db mid out) :
    (∀ t ∈ rankedTeams db mid,
      1 ≤ final_rank_after_aggregation out t ∧
      final_rank_after_aggregation out t ≤ (rankedTeams db mid).length) ∧
    (∀ t, t ∉ rankedTeams db mid →
      final_rank_after_aggregation out t
        = (rankedTeams db mid).length + 1) ∧
    (∀ t u, t ∈ rankedTeams db mid → u ∈ rankedTeams db mid →
      avgRank db mid t < avgRank db mid u →
      final_rank_after_aggregation out t
        < final_rank_after_aggregation out u) := by
  obtain ⟨hperm, havg, hsort⟩ := h
  have hlenmap : (out.map Prod.fst).length = out.length :=
    List.length_map _ _
  have hlen : (out.map Prod.fst).length = (rankedTeams db mid).length :=
    hperm.length_eq
  have hmem : ∀ t, t ∈ out.map Prod.fst ↔ t ∈ rankedTeams db mid :=
    fun t => hperm.mem_iff
  have hval : ∀ (k : Nat) (hk : k < (out.map Prod.fst).length),
      (out.get ⟨k, by omega⟩).2
        = avgRank db mid ((out.map Prod.fst).get ⟨k, hk⟩) := by
    intro k hk
    rw [List.get_map]
    exact havg _ (out.get_mem _ _)
  refine ⟨?_, ?_, ?_⟩
  · intro t ht
    have ht' : t ∈ out.map Prod.fst := (hmem t).mpr ht
    rw [final_rank_after_aggregation, if_pos ht']
    have := List.indexOf_lt_length.mpr ht'
    omega
  · intro t ht
    have ht' : t ∉ out.map Prod.fst := fun hc => ht ((hmem t).mp hc)
    rw [final_rank_after_aggregation, if_neg ht']
    omega
  · intro t u ht hu hlt
    have ht' : t ∈ out.map Prod.fst := (hmem t).mpr ht
    have hu' : u ∈ out.map Prod.fst := (hmem u).mpr hu
    have hit : (out.map Prod.fst).indexOf t < (out.map Prod.fst).length :=
      List.indexOf_lt_length.mpr ht'
    have hiu : (out.map Prod.fst).indexOf u < (out.map Prod.fst).length :=
      List.indexOf_lt_length.mpr hu'
    rw [final_rank_after_aggregation, final_rank_after_aggregation,
      if_pos ht', if_pos hu']
    by_contra hc
    have hji : (out.map Prod.fst).indexOf u
        ≤ (out.map Prod.fst).indexOf t := by omega
    rcases Nat.eq_or_lt_of_le hji with heq | hlt2
    · have hut : u = t := by
        have h1 := List.indexOf_get hit
        have h2 := List.indexOf_get hiu
        rw [← h1, ← h2]
        congr 1
        exact Fin.ext heq
      rw [hut] at hlt
      exact absurd hlt (lt_irrefl _)
    · have hp := List.pairwise_iff_get.mp hsort
        ⟨(out.map Prod.fst).indexOf u, by omega⟩
        ⟨(out.map Prod.fst).indexOf t, by omega⟩ hlt2
      rw [hval _ hiu, hval _ hit, List.indexOf_get hiu,
        List.indexOf_get hit] at hp
      exact absurd (lt_of_lt_of_le hlt hp) (lt_irrefl _)

/-- C4 witness: instantiating the amended theorem on a two-ballot database
    where team 10 averages 1 and team 20 averages 2, with the (unique)
    valid output [(10, 1), (20, 2)]: the strictly better average receives
    the strictly smaller final_rank, and an unranked team 30 receives
    N+1 = 3. -/
theorem final_rank_assignment_witness :
    final_rank_after_aggregation [(10, 1), (20, 2)] 10
      < final_rank_after_aggregation [(10, 1), (20, 2)] 20 ∧
    final_rank_after_aggregation [(10, 1), (20, 2)] 30
      = (rankedTeams
          ⟨[⟨1, 7, true, true⟩, ⟨2, 7, true, true⟩],
            [⟨1, 10, 1⟩, ⟨1, 20, 2⟩, ⟨2, 10, 1⟩, ⟨2, 20, 2⟩]⟩ 7).length
        + 1 :=
  ⟨(final_rank_assignment
      ⟨[⟨1, 7, true, true⟩, ⟨2, 7, true, true⟩],
        [⟨1, 10, 1⟩, ⟨1, 20, 2⟩, ⟨2, 10, 1⟩, ⟨2, 20, 2⟩]⟩ 7
      [(10, 1), (20, 2)] (by decide)).2.2 10 20 (by decide) (by decide)
      (by decide),
    (final_rank_assignment
      ⟨[⟨1, 7, true, true⟩, ⟨2, 7, true, true⟩],
        [⟨1, 10, 1⟩, ⟨1, 20, 2⟩, ⟨2, 10, 1⟩, ⟨2, 20, 2⟩]⟩ 7
      [(10, 1), (20, 2)] (by decide)).2.1 30 (by decide)⟩

/-- C3 witness: swapping two speakers whose fields are all populated does
    fully exchange team_id (the conditional non-NULL case discharged at a
    concrete input). -/
theorem swap_allocations_spec_witness :
    (swap_allocations
        ⟨1, some 100, none, AllocationRole.speaker, some 10,
          some TwoTeamSpeakerRole.primeMinister, none, some false, true⟩
        ⟨2, some 200, none, AllocationRole.speaker, some 11,
          some TwoTeamSpeakerRole.leaderOfOpposition, none, some false,
          true⟩).1.team_id
      = some 11 :=
  (swap_allocations_spec
      ⟨1, some 100, none, AllocationRole.speaker, some 10,
        some TwoTeamSpeakerRole.primeMinister, none, some false, true⟩
      ⟨2, some 200, none, AllocationRole.speaker, some 11,
        some TwoTeamSpeakerRole.leaderOfOpposition, none, some false,
        true⟩).2.2.2.2.2.2.2.2.2.2.1 11 rfl

end Tabrela
